import Mathlib

/-!
# gphoto2-wrapper: capture orchestration and configuration tree walker

A shallow embedding of `photobooth-camera-daemon/gphoto2-wrapper/gphoto2-wrapper.c`.

The device-control library (libgphoto2) is external.  A run of a command is
modelled against a *script* of the library's answers (`Device`): the return
code of every call that is issued at most once, and the answer of the n-th
event poll of the run.  Because the wrapper is deterministic, such a script
covers every behaviour of the library.  A run yields the ordered list of
library calls it issued (`Call`) and the text written to standard output.
Narration written to standard error and the release of event payloads
(`free (event_data)`) are left out: no control flow depends on them.  The object
printed by `get_config` is kept as the list of its members (`SettingRecord`),
each holding the characters that the print loops write between the quotes.
One Lean character stands for one C `char`; a character of code 128 or more
stands for bytes of value `0x80` or more.
-/

namespace Gphoto2Wrapper

/-! ## Library constants and types -/

/-- Modelled from the spec: the libgphoto2 headers are not part of the sources;
`GP_OK` is the library's success code, every error code is below it. -/
def GP_OK : Int := 0

/-- Modelled from the spec: `CameraFilePath` of libgphoto2, a locator
`{folder, name}` of a file on the device.  The library stores the two parts in
fixed buffers, `char name[128]` and `char folder[1024]`. -/
structure CameraFilePath where
  name : String
  folder : String
  name_fits : name.length < 128
  folder_fits : folder.length < 1024

/-- Modelled from the spec: the event tags of libgphoto2 that the wrapper
names, with the payload of `GP_EVENT_FILE_ADDED`; `other` is every further tag. -/
inductive CameraEvent where
  | GP_EVENT_FILE_ADDED (path : CameraFilePath)
  | GP_EVENT_CAPTURE_COMPLETE
  | GP_EVENT_TIMEOUT
  | other (code : Int)

/-- Answer of one `gp_camera_wait_for_event` call: the return code and the
event written through the out-parameters (ignored by the caller when the
return code is an error). -/
structure WaitResult where
  ret : Int
  event : CameraEvent

/-- Library calls issued by the wrapper, in the order of a run. -/
inductive Call where
  | gp_context_new
  | gp_camera_new
  | gp_camera_init
  | gp_camera_get_config
  | gp_camera_capture
  | gp_camera_wait_for_event
  | gp_camera_trigger_capture
  | gp_file_new
  | gp_camera_file_get (folder name : String)
  | gp_file_save (path : String)
  | gp_camera_file_delete (folder name : String)
  | gp_file_free
  | gp_widget_free
  | gp_camera_exit
  | gp_camera_free
  | gp_context_unref
  deriving DecidableEq, Repr

/-- C `snprintf(buf, size, ...)`: at most `size - 1` characters are stored. -/
def snprintf (size : Nat) (s : String) : String :=
  ⟨s.data.take (size - 1)⟩

/-- Text of a C `int` printed with `%d`. -/
def fmt_d (n : Int) : String := toString n

/-- An IEEE single-precision `float` of the C program, kept as its bit pattern;
its decimal text is produced by the C library (`printf_1f` for `%.1f`). -/
structure CFloat where
  bits : Nat
  deriving DecidableEq, Repr

/-- Modelled from the spec: the widget kinds of libgphoto2 that the wrapper
names; `other` is every further kind (window, section, button, ...). -/
inductive CameraWidgetType where
  | GP_WIDGET_TEXT
  | GP_WIDGET_RANGE
  | GP_WIDGET_TOGGLE
  | GP_WIDGET_RADIO
  | GP_WIDGET_MENU
  | GP_WIDGET_DATE
  | other (code : Nat)
  deriving DecidableEq, Repr

/-- Modelled from the spec: what the per-node accessors of libgphoto2 report
for one node of the settings tree.  `name`, `label` and `value_string` are what
`gp_widget_get_name`, `gp_widget_get_label` and `gp_widget_get_value` leave in
their `const char *` out-parameter (`none` is `NULL`); `choice` is the list read
by `gp_widget_count_choices` / `gp_widget_get_choice`; `min`, `max`,
`increment` are read by `gp_widget_get_range`. -/
structure WidgetData where
  type : CameraWidgetType
  name : Option String
  label : Option String
  value_string : Option String
  value_float : CFloat
  value_int : Int
  choice : List String
  min : CFloat
  max : CFloat
  increment : CFloat
  deriving DecidableEq, Repr

/-- A node of the settings tree: its data and its children in index order
(`gp_widget_get_child (widget, i, ..)` answers `GP_OK` exactly for
`i < children.length`). -/
inductive CameraWidget where
  | mk (data : WidgetData) (children : List CameraWidget)

/-- Script of the library's answers for one run of a command. -/
structure Device where
  /-- whether `gp_context_new` returns a context -/
  context_new : Bool
  camera_new : Int
  camera_init : Int
  /-- return code of `gp_camera_get_config` and the tree it hands out -/
  get_config : Int
  config : CameraWidget
  /-- return code of `gp_camera_capture` and the locator it writes -/
  capture : Int
  capture_path : CameraFilePath
  /-- answer of the n-th `gp_camera_wait_for_event` call of the run, from 0 -/
  wait_for_event : Nat → WaitResult
  trigger_capture : Int
  file_new : Int
  file_get : Int
  file_save : Int
  file_delete : Int
  /-- the library's `gp_result_as_string` -/
  result_as_string : Int → String
  /-- the C library's text for a `float` under `%.1f` -/
  printf_1f : CFloat → String
  /-- whether plain `char` is a signed type on the platform of the run -/
  char_signed : Bool

/-- Outcome of a run: the library calls in order and the standard output. -/
structure Run where
  trace : List Call
  stdout : String

/-! ## capture_image -/

/-- First waiting loop of `capture_image` (source lines 479-509), entered with
`wait_retries` attempts left after `polled` polls of the run.  Returns the calls
issued and `some path` when `got_file` was set (`camera_file_path = path`). -/
def fallback_wait (wait_for_event : Nat → WaitResult) :
    (wait_retries : Nat) → (polled : Nat) → List Call × Option CameraFilePath
  | 0, _ => ([], none)
  | wait_retries + 1, polled =>
    let r := wait_for_event polled
    if r.ret < GP_OK then
      ([Call.gp_camera_wait_for_event], none)
    else
      match r.event with
      | .GP_EVENT_FILE_ADDED path => ([Call.gp_camera_wait_for_event], some path)
      | .GP_EVENT_CAPTURE_COMPLETE =>
        let rest := fallback_wait wait_for_event wait_retries (polled + 1)
        (Call.gp_camera_wait_for_event :: rest.1, rest.2)
      | .GP_EVENT_TIMEOUT =>
        let rest := fallback_wait wait_for_event wait_retries (polled + 1)
        (Call.gp_camera_wait_for_event :: rest.1, rest.2)
      | .other _ =>
        let rest := fallback_wait wait_for_event wait_retries (polled + 1)
        (Call.gp_camera_wait_for_event :: rest.1, rest.2)

/-- Second waiting loop of `capture_image`, after the trigger call (source
lines 521-538). -/
def trigger_wait (wait_for_event : Nat → WaitResult) :
    (wait_retries : Nat) → (polled : Nat) → List Call × Option CameraFilePath
  | 0, _ => ([], none)
  | wait_retries + 1, polled =>
    let r := wait_for_event polled
    if r.ret < GP_OK then
      ([Call.gp_camera_wait_for_event], none)
    else
      match r.event with
      | .GP_EVENT_FILE_ADDED path => ([Call.gp_camera_wait_for_event], some path)
      | _ =>
        let rest := trigger_wait wait_for_event wait_retries (polled + 1)
        (Call.gp_camera_wait_for_event :: rest.1, rest.2)

/-- Capture phase of `capture_image` (source lines 464-549): the direct capture
call and, when it reports failure, the two waiting loops around the trigger
call.  Returns the calls issued and the locator when one was obtained. -/
def capture_phase (dev : Device) : List Call × Option CameraFilePath :=
  if dev.capture ≥ GP_OK then
    ([Call.gp_camera_capture], some dev.capture_path)
  else
    let w1 := fallback_wait dev.wait_for_event 50 0
    match w1.2 with
    | some path => (Call.gp_camera_capture :: w1.1, some path)
    | none =>
      let w2 := trigger_wait dev.wait_for_event 50 w1.1.length
      (Call.gp_camera_capture :: (w1.1 ++ Call.gp_camera_trigger_capture :: w2.1), w2.2)

/-- File transfer and cleanup of `capture_image` (source lines 554-593) for the
locator `p`, up to the end of the run. -/
def file_transfer (dev : Device) (p : CameraFilePath) : Run :=
  if dev.file_new < GP_OK then
    ⟨[Call.gp_file_new, Call.gp_camera_exit, Call.gp_camera_free, Call.gp_context_unref],
     "\x7b\"success\":false,\"error\":\"Failed to create file: "
       ++ dev.result_as_string dev.file_new ++ " (code " ++ fmt_d dev.file_new ++ ")\"\x7d\n"⟩
  else if dev.file_get < GP_OK then
    ⟨[Call.gp_file_new, Call.gp_camera_file_get p.folder p.name, Call.gp_file_free,
      Call.gp_camera_exit, Call.gp_camera_free, Call.gp_context_unref],
     "\x7b\"success\":false,\"error\":\"Failed to download: "
       ++ dev.result_as_string dev.file_get ++ " (code " ++ fmt_d dev.file_get ++ ")\"\x7d\n"⟩
  else
    let output_path := snprintf 512 ("/tmp/" ++ p.name)
    ⟨[Call.gp_file_new, Call.gp_camera_file_get p.folder p.name, Call.gp_file_save output_path,
      Call.gp_camera_file_delete p.folder p.name, Call.gp_file_free,
      Call.gp_camera_exit, Call.gp_camera_free, Call.gp_context_unref],
     if dev.file_save < GP_OK then
       "\x7b\"success\":false,\"error\":\"Failed to save file: "
         ++ dev.result_as_string dev.file_save ++ " (code " ++ fmt_d dev.file_save ++ ")\"\x7d\n"
     else
       "\x7b\"success\":true,\"file_path\":\"" ++ output_path ++ "\",\"camera_path\":\""
         ++ p.folder ++ "/" ++ p.name ++ "\"\x7d\n"⟩

/-- The command `capture` (source lines 423-594). -/
def capture_image (dev : Device) : Run :=
  if !dev.context_new then
    ⟨[Call.gp_context_new], "\x7b\"success\":false,\"error\":\"Failed to create context\"\x7d\n"⟩
  else if dev.camera_new < GP_OK then
    ⟨[Call.gp_context_new, Call.gp_camera_new, Call.gp_context_unref],
     "\x7b\"success\":false,\"error\":\"Failed to create camera: "
       ++ dev.result_as_string dev.camera_new ++ " (code " ++ fmt_d dev.camera_new ++ ")\"\x7d\n"⟩
  else if dev.camera_init < GP_OK then
    ⟨[Call.gp_context_new, Call.gp_camera_new, Call.gp_camera_init, Call.gp_camera_free,
      Call.gp_context_unref],
     "\x7b\"success\":false,\"error\":\"Failed to init camera: "
       ++ dev.result_as_string dev.camera_init ++ " (code " ++ fmt_d dev.camera_init ++ ")\"\x7d\n"⟩
  else
    let c := capture_phase dev
    match c.2 with
    | none =>
      ⟨[Call.gp_context_new, Call.gp_camera_new, Call.gp_camera_init] ++ c.1
         ++ [Call.gp_camera_exit, Call.gp_camera_free, Call.gp_context_unref],
       "\x7b\"success\":false,\"error\":\"Capture fired but could not retrieve file from camera\"\x7d\n"⟩
    | some path =>
      let t := file_transfer dev path
      ⟨[Call.gp_context_new, Call.gp_camera_new, Call.gp_camera_init] ++ c.1 ++ t.trace, t.stdout⟩

/-! ## Configuration tree walker -/

mutual
/-- Search of `find_widget` (source lines 221-242) below a non-`NULL` widget:
the widget itself first, then its children. -/
def find_widget : CameraWidget → String → Option CameraWidget
  | .mk data children, name =>
    if data.name = some name then some (.mk data children)
    else find_widget_children children name
/-- The loop `for (i = 0; ; i++)` of `find_widget` over the children that are
still to be visited. -/
def find_widget_children : List CameraWidget → String → Option CameraWidget
  | [], _ => none
  | sub_widget :: rest, name =>
    match find_widget sub_widget name with
    | some found => some found
    | none => find_widget_children rest name
end

/-- Data of a node. -/
def CameraWidget.data : CameraWidget → WidgetData
  | .mk data _ => data

/-- Children of a node, in index order. -/
def CameraWidget.children : CameraWidget → List CameraWidget
  | .mk _ children => children

/-- The helper `get_widget_value` (source lines 245-269); `printf_1f` is the C
library's `%.1f`. -/
def get_widget_value (printf_1f : CFloat → String) (widget : CameraWidget) : String :=
  match widget.data.type with
  | CameraWidgetType.GP_WIDGET_TEXT => widget.data.value_string.getD ""
  | CameraWidgetType.GP_WIDGET_RADIO => widget.data.value_string.getD ""
  | CameraWidgetType.GP_WIDGET_MENU => widget.data.value_string.getD ""
  | CameraWidgetType.GP_WIDGET_RANGE => snprintf 256 (printf_1f widget.data.value_float)
  | CameraWidgetType.GP_WIDGET_TOGGLE => snprintf 256 (if widget.data.value_int ≠ 0 then "true" else "false")
  | _ => ""

/-- The fixed catalog `settings[]` of `get_config` (source lines 312-325). -/
def settings : List String :=
  ["iso", "aperture", "shutterspeed", "shutterspeed2", "exposurecompensation", "whitebalance",
   "focusmode", "drivemode", "imageformat", "imagesize", "flashmode"]

/-- The double quote (code 34). -/
def DQUOTE : Char := Char.ofNat 34

/-- The backslash (code 92). -/
def BACKSLASH : Char := Char.ofNat 92

/-- The newline (code 10). -/
def NEWLINE : Char := Char.ofNat 10

/-- The C test `*p >= 32` on a plain `char`: a byte of value `0x80` or more is
negative where plain `char` is signed. -/
def char_ge_32 (char_signed : Bool) (c : Char) : Bool :=
  if c.toNat < 128 then decide (32 ≤ c.toNat) else !char_signed

/-- The print loop of `get_config` for the value and for the label (source
lines 349-354 and 360-365): the characters written for the rest of a string. -/
def print_string_loop (char_signed : Bool) : List Char → List Char
  | [] => []
  | c :: rest =>
    if c = DQUOTE then BACKSLASH :: DQUOTE :: print_string_loop char_signed rest
    else if c = BACKSLASH then BACKSLASH :: BACKSLASH :: print_string_loop char_signed rest
    else if c = NEWLINE then BACKSLASH :: 'n' :: print_string_loop char_signed rest
    else if char_ge_32 char_signed c then c :: print_string_loop char_signed rest
    else print_string_loop char_signed rest

/-- The print loop of `get_config` for one choice (source lines 393-397): no
case for the newline. -/
def print_choice_loop (char_signed : Bool) : List Char → List Char
  | [] => []
  | c :: rest =>
    if c = DQUOTE then BACKSLASH :: DQUOTE :: print_choice_loop char_signed rest
    else if c = BACKSLASH then BACKSLASH :: BACKSLASH :: print_choice_loop char_signed rest
    else if char_ge_32 char_signed c then c :: print_choice_loop char_signed rest
    else print_choice_loop char_signed rest

/-- Characters written between the quotes for a value or a label. -/
def print_string (char_signed : Bool) (s : String) : String :=
  ⟨print_string_loop char_signed s.data⟩

/-- Characters written between the quotes for a choice. -/
def print_choice (char_signed : Bool) (s : String) : String :=
  ⟨print_choice_loop char_signed s.data⟩

/-- One member `"key":{...}` of the object printed by `get_config`: the
characters written between the quotes for the key (`%s`), for `"value"`,
`"label"` and `"type"`, which are always printed, and for each entry of
`"choices":[...]`, and the numbers handed to `%g` for `"min"`/`"max"`/`"step"`;
the last two groups are printed only when present here. -/
structure SettingRecord where
  key : String
  value : String
  label : String
  type : String
  choices : Option (List String)
  range : Option (CFloat × CFloat × CFloat)
  deriving DecidableEq, Repr

/-- The `switch (type)` of `get_config` choosing `type_str` (source lines 370-379). -/
def type_str (type : CameraWidgetType) : String :=
  match type with
  | CameraWidgetType.GP_WIDGET_TEXT => "text"
  | CameraWidgetType.GP_WIDGET_RANGE => "range"
  | CameraWidgetType.GP_WIDGET_TOGGLE => "toggle"
  | CameraWidgetType.GP_WIDGET_RADIO => "radio"
  | CameraWidgetType.GP_WIDGET_MENU => "menu"
  | CameraWidgetType.GP_WIDGET_DATE => "date"
  | _ => "unknown"

/-- Body of the loop of `get_config` for a widget found under the catalog name
`setting` (source lines 332-412). -/
def setting_record (char_signed : Bool) (printf_1f : CFloat → String) (setting : String)
    (widget : CameraWidget) : SettingRecord :=
  let value := get_widget_value printf_1f widget
  let label := widget.data.label
  let name := widget.data.name
  let type := widget.data.type
  { key := name.getD setting
    value := print_string char_signed value
    label := match label with
      | some label => print_string char_signed label
      | none => ""
    type := type_str type
    choices :=
      if type = CameraWidgetType.GP_WIDGET_RADIO ∨ type = CameraWidgetType.GP_WIDGET_MENU then
        let choices := widget.data.choice.length
        if choices > 0 then some (widget.data.choice.map (print_choice char_signed)) else none
      else none
    range :=
      if type = CameraWidgetType.GP_WIDGET_RANGE then
        some (widget.data.min, widget.data.max, widget.data.increment)
      else none }

/-- The loop of `get_config` over the catalog (source lines 327-415): the
members of the printed object, in order. -/
def config_records (char_signed : Bool) (printf_1f : CFloat → String) (config : CameraWidget) :
    List String → List SettingRecord
  | [] => []
  | setting :: rest =>
    match find_widget config setting with
    | some widget =>
      setting_record char_signed printf_1f setting widget
        :: config_records char_signed printf_1f config rest
    | none => config_records char_signed printf_1f config rest

/-- What `get_config` writes to standard output: an error line, or the object
of setting records. -/
inductive ConfigOutput where
  | error (text : String)
  | object (members : List SettingRecord)
  deriving DecidableEq, Repr

/-- Outcome of a run of `get_config`. -/
structure ConfigRun where
  trace : List Call
  stdout : ConfigOutput

/-- The command `config` (source lines 272-421). -/
def get_config (dev : Device) : ConfigRun :=
  if !dev.context_new then
    ⟨[Call.gp_context_new], .error "\x7b\"error\":\"Failed to create context\"\x7d\n"⟩
  else if dev.camera_new < GP_OK then
    ⟨[Call.gp_context_new, Call.gp_camera_new, Call.gp_context_unref],
     .error ("\x7b\"error\":\"Failed to create camera: "
       ++ dev.result_as_string dev.camera_new ++ "\"\x7d\n")⟩
  else if dev.camera_init < GP_OK then
    ⟨[Call.gp_context_new, Call.gp_camera_new, Call.gp_camera_init, Call.gp_camera_free,
      Call.gp_context_unref],
     .error ("\x7b\"error\":\"Failed to init camera: "
       ++ dev.result_as_string dev.camera_init ++ "\"\x7d\n")⟩
  else if dev.get_config < GP_OK then
    ⟨[Call.gp_context_new, Call.gp_camera_new, Call.gp_camera_init, Call.gp_camera_get_config,
      Call.gp_camera_exit, Call.gp_camera_free, Call.gp_context_unref],
     .error ("\x7b\"error\":\"Failed to get config: "
       ++ dev.result_as_string dev.get_config ++ "\"\x7d\n")⟩
  else
    ⟨[Call.gp_context_new, Call.gp_camera_new, Call.gp_camera_init, Call.gp_camera_get_config,
      Call.gp_widget_free, Call.gp_camera_exit, Call.gp_camera_free, Call.gp_context_unref],
     .object (config_records dev.char_signed dev.printf_1f dev.config settings)⟩

mutual
/-- All nodes of a tree in depth-first pre-order: a node before its children,
children in index order. -/
def preorder : CameraWidget → List CameraWidget
  | .mk data children => .mk data children :: preorder_children children
/-- Pre-order listing of a sequence of sibling trees. -/
def preorder_children : List CameraWidget → List CameraWidget
  | [] => []
  | c :: rest => preorder c ++ preorder_children rest
end

/-- Whether the name of a node equals the query. -/
def CameraWidget.named (name : String) (w : CameraWidget) : Bool :=
  decide (w.data.name = some name)

/-- Number of event polls (`gp_camera_wait_for_event`) in a list of calls. -/
def polls (calls : List Call) : Nat := calls.count Call.gp_camera_wait_for_event

/-- Number of trigger calls (`gp_camera_trigger_capture`) in a list of calls. -/
def triggers (calls : List Call) : Nat := calls.count Call.gp_camera_trigger_capture

/-- A poll answer that reports a poll-call error. -/
def WaitResult.is_error (r : WaitResult) : Prop := r.ret < GP_OK

/-- A poll answer that delivers the event `FileAdded` with locator `p`. -/
def WaitResult.file_added (r : WaitResult) (p : CameraFilePath) : Prop :=
  ¬ r.ret < GP_OK ∧ r.event = CameraEvent.GP_EVENT_FILE_ADDED p

/-- A poll answer on which a waiting loop stops: an error or a `FileAdded`. -/
def WaitResult.stops (r : WaitResult) : Prop :=
  r.ret < GP_OK ∨ ∃ p, r.event = CameraEvent.GP_EVENT_FILE_ADDED p

/-- Number of `gp_camera_file_get` calls in a list of calls. -/
def downloads (calls : List Call) : Nat :=
  calls.countP (fun c => match c with | .gp_camera_file_get _ _ => true | _ => false)

/-- Number of `gp_camera_file_delete` calls in a list of calls. -/
def deletes (calls : List Call) : Nat :=
  calls.countP (fun c => match c with | .gp_camera_file_delete _ _ => true | _ => false)

/-- Number of file-transfer calls (`gp_file_new`, `gp_camera_file_get`,
`gp_file_save`, `gp_camera_file_delete`) in a list of calls. -/
def transfers (calls : List Call) : Nat :=
  calls.countP (fun c => match c with
    | .gp_file_new => true
    | .gp_camera_file_get _ _ => true
    | .gp_file_save _ => true
    | .gp_camera_file_delete _ _ => true
    | _ => false)

/-- The session of a run opened: context, handle and initialization succeeded. -/
def Device.initialized (dev : Device) : Prop :=
  dev.context_new = true ∧ ¬ dev.camera_new < GP_OK ∧ ¬ dev.camera_init < GP_OK

/-! ## Sample devices -/

/-- Locator `/store/1/IMG01.JPG`. -/
def img01 : CameraFilePath := ⟨"IMG01.JPG", "/store/1", by decide, by decide⟩

/-- Locator `/store/1/IMG02.JPG`. -/
def img02 : CameraFilePath := ⟨"IMG02.JPG", "/store/1", by decide, by decide⟩

/-- A leaf node of kind `type` named `name` with a string value and choices. -/
def sample_leaf (name : String) (type : CameraWidgetType) (value : String)
    (choice : List String) : CameraWidget :=
  .mk { type := type, name := some name, label := some name, value_string := some value,
        value_float := ⟨0⟩, value_int := 0, choice := choice,
        min := ⟨0⟩, max := ⟨0⟩, increment := ⟨0⟩ } []

/-- A tree whose only setting is an `iso` menu with four choices. -/
def sample_config : CameraWidget :=
  .mk { type := .other 0, name := some "main", label := some "Camera", value_string := none,
        value_float := ⟨0⟩, value_int := 0, choice := [],
        min := ⟨0⟩, max := ⟨0⟩, increment := ⟨0⟩ }
    [sample_leaf "iso" CameraWidgetType.GP_WIDGET_MENU "400" ["100", "200", "400", "800"]]

/-- A device whose session opens and whose transfer calls succeed, with the
given answers of the direct capture, of the polls, of the download call and of
the settings accessor. -/
def sample_device (capture : Int) (wait_for_event : Nat → WaitResult) (file_get : Int)
    (config : CameraWidget) : Device :=
  { context_new := true, camera_new := 0, camera_init := 0, get_config := 0, config := config,
    capture := capture, capture_path := img01, wait_for_event := wait_for_event,
    trigger_capture := -1, file_new := 0, file_get := file_get, file_save := 0, file_delete := 0,
    result_as_string := fun _ => "Unspecified error", printf_1f := fun _ => "0.0",
    char_signed := true }

/-- Polls that always time out. -/
def all_timeouts : Nat → WaitResult := fun _ => ⟨0, .GP_EVENT_TIMEOUT⟩

/-- Polls that time out except the poll of index `k`, which delivers
`FileAdded` with locator `p`. -/
def file_added_at (k : Nat) (p : CameraFilePath) : Nat → WaitResult :=
  fun i => if i = k then ⟨0, .GP_EVENT_FILE_ADDED p⟩ else ⟨0, .GP_EVENT_TIMEOUT⟩

/-! ## Lemmas on the waiting loops -/

theorem WaitResult.file_added_stops {r : WaitResult} {p : CameraFilePath}
    (h : r.file_added p) : r.stops :=
  Or.inr ⟨p, h.2⟩

theorem fallback_wait_eq_trigger_wait (ev : Nat → WaitResult) (r n : Nat) :
    fallback_wait ev r n = trigger_wait ev r n := by
  induction r generalizing n with
  | zero => rfl
  | succ r ih =>
    simp only [fallback_wait, trigger_wait]
    split
    · rfl
    · cases h : (ev n).event <;> simp [ih]

theorem trigger_wait_step (ev : Nat → WaitResult) (r n : Nat) (h : ¬ (ev n).stops) :
    trigger_wait ev (r + 1) n
      = (Call.gp_camera_wait_for_event :: (trigger_wait ev r (n + 1)).1,
         (trigger_wait ev r (n + 1)).2) := by
  have h1 : ¬ (ev n).ret < GP_OK := fun hh => h (Or.inl hh)
  have h2 : ∀ p, (ev n).event ≠ CameraEvent.GP_EVENT_FILE_ADDED p := fun p hh => h (Or.inr ⟨p, hh⟩)
  simp only [trigger_wait, if_neg h1]

theorem trigger_wait_stop (ev : Nat → WaitResult) (r n : Nat) (h : (ev n).stops) :
    (trigger_wait ev (r + 1) n).1 = [Call.gp_camera_wait_for_event]
      ∧ ∀ p, (trigger_wait ev (r + 1) n).2 = some p ↔ (ev n).file_added p := by
  by_cases h1 : (ev n).ret < GP_OK
  · simp [trigger_wait, h1, WaitResult.file_added]
  · rcases h with h | ⟨q, hq⟩
    · exact absurd h h1
    · simp [trigger_wait, h1, hq, WaitResult.file_added]

theorem trigger_wait_calls (ev : Nat → WaitResult) (r n : Nat) :
    (trigger_wait ev r n).1
      = List.replicate (trigger_wait ev r n).1.length Call.gp_camera_wait_for_event := by
  induction r generalizing n with
  | zero => rfl
  | succ r ih =>
    by_cases h : (ev n).stops
    · rw [(trigger_wait_stop ev r n h).1]; rfl
    · rw [trigger_wait_step ev r n h]
      simp only [List.length_cons, List.replicate_succ]
      rw [← ih]

theorem trigger_wait_length_le (ev : Nat → WaitResult) (r n : Nat) :
    (trigger_wait ev r n).1.length ≤ r := by
  induction r generalizing n with
  | zero => simp [trigger_wait]
  | succ r ih =>
    by_cases h : (ev n).stops
    · rw [(trigger_wait_stop ev r n h).1]; simp
    · rw [trigger_wait_step ev r n h]
      simpa using ih (n + 1)

theorem trigger_wait_no_stop (ev : Nat → WaitResult) (r n : Nat)
    (h : ∀ i, i < r → ¬ (ev (n + i)).stops) :
    trigger_wait ev r n = (List.replicate r Call.gp_camera_wait_for_event, none) := by
  induction r generalizing n with
  | zero => rfl
  | succ r ih =>
    have h0 : ¬ (ev n).stops := by simpa using h 0 (Nat.succ_pos r)
    have hr : ∀ i, i < r → ¬ (ev (n + 1 + i)).stops := by
      intro i hi
      have := h (i + 1) (Nat.succ_lt_succ hi)
      rwa [show n + (i + 1) = n + 1 + i by omega] at this
    rw [trigger_wait_step ev r n h0, ih (n + 1) hr]
    rfl

theorem trigger_wait_first_stop (ev : Nat → WaitResult) (r n k : Nat) (hk : k < r)
    (h : ∀ i, i < k → ¬ (ev (n + i)).stops) (hs : (ev (n + k)).stops) :
    (trigger_wait ev r n).1 = List.replicate (k + 1) Call.gp_camera_wait_for_event
      ∧ ∀ p, (trigger_wait ev r n).2 = some p ↔ (ev (n + k)).file_added p := by
  induction k generalizing r n with
  | zero =>
    obtain ⟨r, rfl⟩ : ∃ r', r = r' + 1 := ⟨r - 1, by omega⟩
    simpa using trigger_wait_stop ev r n hs
  | succ k ih =>
    obtain ⟨r, rfl⟩ : ∃ r', r = r' + 1 := ⟨r - 1, by omega⟩
    have h0 : ¬ (ev n).stops := by simpa using h 0 (Nat.succ_pos k)
    have hr : ∀ i, i < k → ¬ (ev (n + 1 + i)).stops := by
      intro i hi
      have := h (i + 1) (Nat.succ_lt_succ hi)
      rwa [show n + (i + 1) = n + 1 + i by omega] at this
    have hs1 : (ev (n + 1 + k)).stops := by
      rwa [show n + (k + 1) = n + 1 + k by omega] at hs
    have := ih r (n + 1) (by omega) hr hs1
    rw [trigger_wait_step ev r n h0]
    refine ⟨?_, ?_⟩
    · simp only [this.1]; rfl
    · intro p
      rw [show n + (k + 1) = n + 1 + k by omega]
      exact this.2 p

theorem trigger_wait_result (ev : Nat → WaitResult) (r n : Nat) (p : CameraFilePath) :
    (trigger_wait ev r n).2 = some p
      ↔ 1 ≤ (trigger_wait ev r n).1.length
          ∧ (ev (n + (trigger_wait ev r n).1.length - 1)).file_added p := by
  induction r generalizing n with
  | zero => simp [trigger_wait]
  | succ r ih =>
    by_cases h : (ev n).stops
    · obtain ⟨h1, h2⟩ := trigger_wait_stop ev r n h
      rw [h2 p, h1]
      simp
    · rw [trigger_wait_step ev r n h]
      simp only [List.length_cons]
      rw [ih (n + 1)]
      constructor
      · rintro ⟨hl, hf⟩
        refine ⟨by omega, ?_⟩
        rwa [show n + ((trigger_wait ev r (n + 1)).1.length + 1) - 1
              = n + 1 + (trigger_wait ev r (n + 1)).1.length - 1 by omega]
      · rintro ⟨-, hf⟩
        by_cases hl : (trigger_wait ev r (n + 1)).1.length = 0
        · rw [hl] at hf
          exact absurd (WaitResult.file_added_stops hf) (by simpa using h)
        · refine ⟨by omega, ?_⟩
          rwa [show n + ((trigger_wait ev r (n + 1)).1.length + 1) - 1
                = n + 1 + (trigger_wait ev r (n + 1)).1.length - 1 by omega] at hf

theorem polls_replicate (k : Nat) :
    polls (List.replicate k Call.gp_camera_wait_for_event) = k := by
  simp [polls]

theorem triggers_replicate (k : Nat) :
    triggers (List.replicate k Call.gp_camera_wait_for_event) = 0 := by
  simp [triggers, List.count_replicate]

theorem polls_trigger_wait (ev : Nat → WaitResult) (r n : Nat) :
    polls (trigger_wait ev r n).1 = (trigger_wait ev r n).1.length := by
  rw [trigger_wait_calls ev r n, polls_replicate, List.length_replicate]

/-! ## Lemmas on `capture_image` -/

theorem trigger_wait_length_pos (ev : Nat → WaitResult) (r n : Nat) :
    1 ≤ (trigger_wait ev (r + 1) n).1.length := by
  by_cases h : (ev n).stops
  · rw [(trigger_wait_stop ev r n h).1]; simp
  · rw [trigger_wait_step ev r n h]; simp

theorem capture_phase_direct (dev : Device) (h : dev.capture ≥ GP_OK) :
    capture_phase dev = ([Call.gp_camera_capture], some dev.capture_path) := by
  simp [capture_phase, h]

theorem capture_phase_fallback (dev : Device) (h : dev.capture < GP_OK) (p : CameraFilePath)
    (h1 : (trigger_wait dev.wait_for_event 50 0).2 = some p) :
    capture_phase dev
      = (Call.gp_camera_capture :: (trigger_wait dev.wait_for_event 50 0).1, some p) := by
  have hn : ¬ dev.capture ≥ GP_OK := not_le.mpr h
  simp only [capture_phase, if_neg hn, fallback_wait_eq_trigger_wait, h1]

theorem capture_phase_trigger (dev : Device) (h : dev.capture < GP_OK)
    (h1 : (trigger_wait dev.wait_for_event 50 0).2 = none) :
    capture_phase dev
      = (Call.gp_camera_capture :: ((trigger_wait dev.wait_for_event 50 0).1
            ++ Call.gp_camera_trigger_capture
              :: (trigger_wait dev.wait_for_event 50
                    (trigger_wait dev.wait_for_event 50 0).1.length).1),
         (trigger_wait dev.wait_for_event 50
            (trigger_wait dev.wait_for_event 50 0).1.length).2) := by
  have hn : ¬ dev.capture ≥ GP_OK := not_le.mpr h
  simp only [capture_phase, if_neg hn, fallback_wait_eq_trigger_wait, h1]

theorem capture_image_none (dev : Device) (h : dev.initialized)
    (hc : (capture_phase dev).2 = none) :
    capture_image dev
      = ⟨[Call.gp_context_new, Call.gp_camera_new, Call.gp_camera_init] ++ (capture_phase dev).1
          ++ [Call.gp_camera_exit, Call.gp_camera_free, Call.gp_context_unref],
         "\x7b\"success\":false,\"error\":\"Capture fired but could not retrieve file from camera\"\x7d\n"⟩ := by
  obtain ⟨h1, h2, h3⟩ := h
  simp only [capture_image, h1, if_neg h2, if_neg h3, hc]
  rfl

theorem capture_image_some (dev : Device) (h : dev.initialized) (p : CameraFilePath)
    (hc : (capture_phase dev).2 = some p) :
    capture_image dev
      = ⟨[Call.gp_context_new, Call.gp_camera_new, Call.gp_camera_init] ++ (capture_phase dev).1
          ++ (file_transfer dev p).trace,
         (file_transfer dev p).stdout⟩ := by
  obtain ⟨h1, h2, h3⟩ := h
  simp only [capture_image, h1, if_neg h2, if_neg h3, hc]
  rfl

theorem polls_append (a b : List Call) : polls (a ++ b) = polls a + polls b := by
  simp [polls, List.count_append]

theorem triggers_append (a b : List Call) : triggers (a ++ b) = triggers a + triggers b := by
  simp [triggers, List.count_append]

theorem file_transfer_polls (dev : Device) (p : CameraFilePath) :
    polls (file_transfer dev p).trace = 0 ∧ triggers (file_transfer dev p).trace = 0 := by
  unfold file_transfer
  split
  · simp [polls, triggers]
  · split <;> simp [polls, triggers]

theorem capture_image_polls (dev : Device) (h : dev.initialized) :
    polls (capture_image dev).trace = polls (capture_phase dev).1
      ∧ triggers (capture_image dev).trace = triggers (capture_phase dev).1 := by
  cases hc : (capture_phase dev).2 with
  | none =>
    rw [capture_image_none dev h hc]
    simp [polls_append, triggers_append, polls, triggers]
  | some p =>
    rw [capture_image_some dev h p hc]
    simp only [polls_append, triggers_append, (file_transfer_polls dev p).1,
      (file_transfer_polls dev p).2]
    simp [polls, triggers]

theorem capture_phase_calls (dev : Device) :
    ∀ c ∈ (capture_phase dev).1,
      c = Call.gp_camera_capture ∨ c = Call.gp_camera_wait_for_event
        ∨ c = Call.gp_camera_trigger_capture := by
  intro c hc
  by_cases h : dev.capture ≥ GP_OK
  · rw [capture_phase_direct dev h] at hc
    simp at hc
    exact Or.inl hc
  · have hlt : dev.capture < GP_OK := not_le.mp h
    have hmem : ∀ r n, c ∈ (trigger_wait dev.wait_for_event r n).1 →
        c = Call.gp_camera_wait_for_event := by
      intro r n hm
      rw [trigger_wait_calls] at hm
      exact (List.mem_replicate.mp hm).2
    cases h1 : (trigger_wait dev.wait_for_event 50 0).2 with
    | some p =>
      rw [capture_phase_fallback dev hlt p h1] at hc
      rcases List.mem_cons.mp hc with hc | hc
      · exact Or.inl hc
      · exact Or.inr (Or.inl (hmem _ _ hc))
    | none =>
      rw [capture_phase_trigger dev hlt h1] at hc
      rcases List.mem_cons.mp hc with hc | hc
      · exact Or.inl hc
      · rcases List.mem_append.mp hc with hc | hc
        · exact Or.inr (Or.inl (hmem _ _ hc))
        · rcases List.mem_cons.mp hc with hc | hc
          · exact Or.inr (Or.inr hc)
          · exact Or.inr (Or.inl (hmem _ _ hc))

theorem capture_phase_transfers (dev : Device) :
    transfers (capture_phase dev).1 = 0 ∧ downloads (capture_phase dev).1 = 0
      ∧ deletes (capture_phase dev).1 = 0 := by
  refine ⟨?_, ?_, ?_⟩ <;>
  · simp only [transfers, downloads, deletes, List.countP_eq_zero]
    intro c hc
    rcases capture_phase_calls dev c hc with h | h | h <;> simp [h]

theorem snprintf_output_path (p : CameraFilePath) :
    snprintf 512 ("/tmp/" ++ p.name) = "/tmp/" ++ p.name := by
  have h := p.name_fits
  have hl : ("/tmp/" ++ p.name).data.length ≤ 512 - 1 := by
    have hd : ("/tmp/" ++ p.name).data = "/tmp/".data ++ p.name.data := String.data_append _ _
    have h5 : "/tmp/".data.length = 5 := rfl
    have hn : p.name.length = p.name.data.length := rfl
    rw [hd, List.length_append, h5]
    omega
  unfold snprintf
  rw [List.take_of_length_le hl]

/-- C1: in every run of `capture_image` whose device initialization succeeds,
no event poll and no trigger call is issued when `gp_camera_capture` reports
success, and at least one event poll is issued when it reports failure. -/
theorem capture_image_fallback_iff_direct_failure (dev : Device) (h : dev.initialized) :
    (dev.capture ≥ GP_OK →
        polls (capture_image dev).trace = 0 ∧ triggers (capture_image dev).trace = 0)
    ∧ (dev.capture < GP_OK → 1 ≤ polls (capture_image dev).trace) := by
  obtain ⟨hp, ht⟩ := capture_image_polls dev h
  refine ⟨fun hc => ?_, fun hc => ?_⟩
  · rw [hp, ht, capture_phase_direct dev hc]
    simp [polls, triggers]
  · rw [hp]
    have hpos : 1 ≤ (trigger_wait dev.wait_for_event 50 0).1.length :=
      trigger_wait_length_pos dev.wait_for_event 49 0
    have hcount := polls_trigger_wait dev.wait_for_event 50 0
    cases h1 : (trigger_wait dev.wait_for_event 50 0).2 with
    | some p =>
      rw [capture_phase_fallback dev hc p h1]
      rw [show Call.gp_camera_capture :: (trigger_wait dev.wait_for_event 50 0).1
            = [Call.gp_camera_capture] ++ (trigger_wait dev.wait_for_event 50 0).1 from rfl,
        polls_append, hcount]
      omega
    | none =>
      rw [capture_phase_trigger dev hc h1]
      rw [show ∀ l : List Call, Call.gp_camera_capture
              :: ((trigger_wait dev.wait_for_event 50 0).1 ++ l)
            = [Call.gp_camera_capture] ++ ((trigger_wait dev.wait_for_event 50 0).1 ++ l)
            from fun _ => rfl,
        polls_append, polls_append, hcount]
      omega

/-- Witness of C1: a failed direct capture followed by time-outs only. -/
theorem capture_image_fallback_iff_direct_failure_witness :
    (sample_device (-1) all_timeouts 0 sample_config).initialized
      ∧ 1 ≤ polls (capture_image (sample_device (-1) all_timeouts 0 sample_config)).trace :=
  ⟨⟨rfl, by decide, by decide⟩,
   (capture_image_fallback_iff_direct_failure (sample_device (-1) all_timeouts 0 sample_config)
      ⟨rfl, by decide, by decide⟩).2 (by decide)⟩

/-- C2, as stated, fails: when the direct capture hands out a locator and
`gp_camera_file_get` fails, the run ends without any `gp_camera_file_delete`. -/
theorem file_delete_skipped_on_failed_download :
    (capture_phase (sample_device 0 all_timeouts (-1) sample_config)).2.isSome = true
      ∧ (capture_image (sample_device 0 all_timeouts (-1) sample_config)).trace
          = [Call.gp_context_new, Call.gp_camera_new, Call.gp_camera_init,
             Call.gp_camera_capture, Call.gp_file_new,
             Call.gp_camera_file_get "/store/1" "IMG01.JPG", Call.gp_file_free,
             Call.gp_camera_exit, Call.gp_camera_free, Call.gp_context_unref]
      ∧ deletes (capture_image (sample_device 0 all_timeouts (-1) sample_config)).trace = 0 := by
  decide

/-- C2, amended: in every run of `capture_image` in which a locator was
obtained and both `gp_file_new` and `gp_camera_file_get` succeed, the run ends
with one `gp_camera_file_get` on the locator, the save call, one
`gp_camera_file_delete` on the locator and the releases, in this order,
whatever `gp_file_save` answers, and these are the only download and delete
calls of the run; when `gp_file_new` or `gp_camera_file_get` fails no delete
call is issued. -/
theorem file_delete_once_after_download (dev : Device) (h : dev.initialized)
    (p : CameraFilePath) (hp : (capture_phase dev).2 = some p) :
    (¬ dev.file_new < GP_OK → ¬ dev.file_get < GP_OK →
        (capture_image dev).trace
            = ([Call.gp_context_new, Call.gp_camera_new, Call.gp_camera_init]
                ++ (capture_phase dev).1)
              ++ [Call.gp_file_new, Call.gp_camera_file_get p.folder p.name,
                  Call.gp_file_save ("/tmp/" ++ p.name),
                  Call.gp_camera_file_delete p.folder p.name, Call.gp_file_free,
                  Call.gp_camera_exit, Call.gp_camera_free, Call.gp_context_unref]
          ∧ downloads ([Call.gp_context_new, Call.gp_camera_new, Call.gp_camera_init]
                ++ (capture_phase dev).1) = 0
          ∧ deletes ([Call.gp_context_new, Call.gp_camera_new, Call.gp_camera_init]
                ++ (capture_phase dev).1) = 0
          ∧ downloads (capture_image dev).trace = 1
          ∧ deletes (capture_image dev).trace = 1)
    ∧ (dev.file_new < GP_OK ∨ dev.file_get < GP_OK → deletes (capture_image dev).trace = 0) := by
  obtain ⟨-, hd, hx⟩ := capture_phase_transfers dev
  have hd' : downloads ([Call.gp_context_new, Call.gp_camera_new, Call.gp_camera_init]
      ++ (capture_phase dev).1) = 0 := by
    simp only [downloads, List.countP_append] at hd ⊢
    rw [hd]; rfl
  have hx' : deletes ([Call.gp_context_new, Call.gp_camera_new, Call.gp_camera_init]
      ++ (capture_phase dev).1) = 0 := by
    simp only [deletes, List.countP_append] at hx ⊢
    rw [hx]; rfl
  rw [capture_image_some dev h p hp]
  refine ⟨fun hn hg => ?_, fun hf => ?_⟩
  · have ht : (file_transfer dev p).trace
        = [Call.gp_file_new, Call.gp_camera_file_get p.folder p.name,
            Call.gp_file_save ("/tmp/" ++ p.name),
            Call.gp_camera_file_delete p.folder p.name, Call.gp_file_free,
            Call.gp_camera_exit, Call.gp_camera_free, Call.gp_context_unref] := by
      simp only [file_transfer, if_neg hn, if_neg hg, snprintf_output_path]
    refine ⟨by rw [ht], hd', hx', ?_, ?_⟩
    · simp only [ht, downloads, List.countP_append] at hd' ⊢
      rw [hd']; rfl
    · simp only [ht, deletes, List.countP_append] at hx' ⊢
      rw [hx']; rfl
  · simp only [deletes, List.countP_append] at hx' ⊢
    rw [hx']
    by_cases hn : dev.file_new < GP_OK
    · simp only [file_transfer, if_pos hn]; rfl
    · have hg : dev.file_get < GP_OK := hf.resolve_left hn
      simp only [file_transfer, if_neg hn, if_pos hg]; rfl

/-- Witness of C2 (amended): Scenario A with a successful download. -/
theorem file_delete_once_after_download_witness :
    deletes (capture_image (sample_device 0 all_timeouts 0 sample_config)).trace = 1 :=
  ((file_delete_once_after_download (sample_device 0 all_timeouts 0 sample_config)
      ⟨rfl, by decide, by decide⟩ img01 rfl).1 (by decide) (by decide)).2.2.2.2

/-- C3: each of the two waiting loops of `capture_image`, run with its budget
of 50 attempts after `n` earlier polls on any sequence `ev` of poll answers,
issues only polls, at least one and at most 50 of them; their number is
`min 50 k` when `k` is the position of the first answer that is a `FileAdded`
or an error, and 50 when there is no such answer among the first 50; an answer
`CaptureComplete`, `Timeout` or any other event uses up exactly one attempt and
one poll; and the loop yields the locator `p` exactly when the poll at which it
stopped returned `FileAdded` with `p`. -/
theorem waiting_phase_polls
    (loop : (Nat → WaitResult) → Nat → Nat → List Call × Option CameraFilePath)
    (hloop : loop = fallback_wait ∨ loop = trigger_wait) (ev : Nat → WaitResult) (n : Nat) :
    (loop ev 50 n).1 = List.replicate (polls (loop ev 50 n).1) Call.gp_camera_wait_for_event
    ∧ 1 ≤ polls (loop ev 50 n).1
    ∧ polls (loop ev 50 n).1 ≤ 50
    ∧ (∀ k, 1 ≤ k → (ev (n + (k - 1))).stops → (∀ i, i < k - 1 → ¬ (ev (n + i)).stops) →
        polls (loop ev 50 n).1 = min 50 k)
    ∧ ((∀ i, i < 50 → ¬ (ev (n + i)).stops) → polls (loop ev 50 n).1 = 50)
    ∧ (∀ r m, ¬ (ev m).ret < GP_OK →
        ((ev m).event = CameraEvent.GP_EVENT_CAPTURE_COMPLETE
          ∨ (ev m).event = CameraEvent.GP_EVENT_TIMEOUT
          ∨ ∃ code, (ev m).event = CameraEvent.other code) →
        loop ev (r + 1) m
          = (Call.gp_camera_wait_for_event :: (loop ev r (m + 1)).1, (loop ev r (m + 1)).2))
    ∧ (∀ p, (loop ev 50 n).2 = some p
        ↔ (ev (n + (polls (loop ev 50 n).1 - 1))).file_added p) := by
  have hl : loop = trigger_wait := by
    rcases hloop with h | h
    · rw [h]; funext e r m; exact fallback_wait_eq_trigger_wait e r m
    · exact h
  subst hl
  have hlen := polls_trigger_wait ev 50 n
  have hpos : 1 ≤ (trigger_wait ev 50 n).1.length := trigger_wait_length_pos ev 49 n
  refine ⟨?_, ?_, ?_, ?_, ?_, ?_, ?_⟩
  · rw [hlen]; exact trigger_wait_calls ev 50 n
  · omega
  · rw [hlen]; exact trigger_wait_length_le ev 50 n
  · intro k hk hs hb
    rw [hlen]
    by_cases hk50 : k ≤ 50
    · have := (trigger_wait_first_stop ev 50 n (k - 1) (by omega) hb hs).1
      rw [this, List.length_replicate]
      omega
    · have := trigger_wait_no_stop ev 50 n (fun i hi => hb i (by omega))
      rw [this, List.length_replicate]
      omega
  · intro hb
    rw [hlen, trigger_wait_no_stop ev 50 n hb, List.length_replicate]
  · intro r m hret hev
    apply trigger_wait_step
    rintro (h | ⟨q, hq⟩)
    · exact hret h
    · rcases hev with h | h | ⟨c, h⟩ <;> rw [h] at hq <;> cases hq
  · intro p
    rw [hlen, trigger_wait_result ev 50 n p]
    rw [show n + (trigger_wait ev 50 n).1.length - 1
          = n + ((trigger_wait ev 50 n).1.length - 1) by omega]
    exact ⟨fun h => h.2, fun h => ⟨hpos, h⟩⟩

/-- Witness of C3: time-outs and a `FileAdded` at position 7 give 7 polls. -/
theorem waiting_phase_polls_witness :
    polls (fallback_wait (file_added_at 6 img02) 50 0).1 = min 50 7 :=
  (waiting_phase_polls fallback_wait (Or.inl rfl) (file_added_at 6 img02) 0).2.2.2.1 7
    (by decide) (Or.inr ⟨img02, rfl⟩)
    (by
      intro i hi h
      have hne : i ≠ 6 := by omega
      rcases h with h | ⟨q, hq⟩
      · simp [file_added_at, hne, GP_OK] at h
      · simp [file_added_at, hne] at hq)

/-- C4: when the session is opened, the direct capture fails and poll `k`
(`1 ≤ k ≤ 50`) of the first waiting loop returns `FileAdded` with locator `p`
after `k - 1` polls that returned other events without error, the run issues no
trigger call and exactly `k` polls, and goes on with the file transfer of `p`:
its trace is the session opening, the capture call, `k` polls and the transfer
calls for `p` (Scenario B: `k = 7`). -/
theorem fallback_file_added_skips_trigger (dev : Device) (h : dev.initialized)
    (hc : dev.capture < GP_OK) (k : Nat) (p : CameraFilePath) (hk1 : 1 ≤ k) (hk : k ≤ 50)
    (hadd : (dev.wait_for_event (k - 1)).file_added p)
    (hbefore : ∀ i, i < k - 1 → ¬ (dev.wait_for_event i).is_error
        ∧ ∀ q, (dev.wait_for_event i).event ≠ CameraEvent.GP_EVENT_FILE_ADDED q) :
    triggers (capture_image dev).trace = 0
    ∧ polls (capture_image dev).trace = k
    ∧ (capture_phase dev).2 = some p
    ∧ (capture_image dev).trace
        = [Call.gp_context_new, Call.gp_camera_new, Call.gp_camera_init, Call.gp_camera_capture]
            ++ List.replicate k Call.gp_camera_wait_for_event ++ (file_transfer dev p).trace
    ∧ (capture_image dev).stdout = (file_transfer dev p).stdout
    ∧ (¬ dev.file_new < GP_OK →
        ∃ rest, (file_transfer dev p).trace
          = Call.gp_file_new :: Call.gp_camera_file_get p.folder p.name :: rest) := by
  have hb : ∀ i, i < k - 1 → ¬ (dev.wait_for_event (0 + i)).stops := by
    intro i hi
    rw [Nat.zero_add]
    rintro (hs | ⟨q, hq⟩)
    · exact (hbefore i hi).1 hs
    · exact (hbefore i hi).2 q hq
  have hs : (dev.wait_for_event (0 + (k - 1))).stops := by
    rw [Nat.zero_add]; exact WaitResult.file_added_stops hadd
  obtain ⟨hcalls, hres⟩ := trigger_wait_first_stop dev.wait_for_event 50 0 (k - 1) (by omega) hb hs
  rw [show k - 1 + 1 = k by omega] at hcalls
  have hsome : (trigger_wait dev.wait_for_event 50 0).2 = some p := by
    rw [hres p, Nat.zero_add]; exact hadd
  have hphase := capture_phase_fallback dev hc p hsome
  rw [hcalls] at hphase
  have hp2 : (capture_phase dev).2 = some p := by rw [hphase]
  obtain ⟨hpolls, htrig⟩ := capture_image_polls dev h
  have himg := capture_image_some dev h p hp2
  refine ⟨?_, ?_, hp2, ?_, ?_, ?_⟩
  · rw [htrig, hphase]
    simp [triggers, List.count_cons, List.count_replicate]
  · rw [hpolls, hphase]
    simp [polls, List.count_cons, List.count_replicate]
  · rw [himg, hphase]; simp
  · rw [himg]
  · intro hn
    by_cases hg : dev.file_get < GP_OK
    · simp only [file_transfer, if_neg hn, if_pos hg]
      exact ⟨_, rfl⟩
    · simp only [file_transfer, if_neg hn, if_neg hg]
      exact ⟨_, rfl⟩

/-- Witness of C4 (Scenario B): the direct capture fails and poll 7 returns
`FileAdded` for `/store/1/IMG02.JPG`; the run issues exactly 7 polls. -/
theorem fallback_file_added_skips_trigger_witness :
    polls (capture_image (sample_device (-1) (file_added_at 6 img02) 0 sample_config)).trace = 7 :=
  (fallback_file_added_skips_trigger (sample_device (-1) (file_added_at 6 img02) 0 sample_config)
    ⟨rfl, by decide, by decide⟩ (by decide) 7 img02 (by decide) (by decide)
    ⟨by decide, rfl⟩
    (by
      intro i hi
      have hne : i ≠ 6 := by omega
      refine ⟨?_, ?_⟩
      · simp [sample_device, file_added_at, hne, GP_OK, WaitResult.is_error]
      · intro q
        simp [sample_device, file_added_at, hne])).2.1

theorem trigger_wait_issued (ev : Nat → WaitResult) (r n j : Nat)
    (hj : j ≤ (trigger_wait ev r n).1.length) :
    ∀ i, i < j - 1 → ¬ (ev (n + i)).stops := by
  induction r generalizing n j with
  | zero =>
    intro i hi
    simp [trigger_wait] at hj
    omega
  | succ r ih =>
    intro i hi
    by_cases h : (ev n).stops
    · rw [(trigger_wait_stop ev r n h).1] at hj
      simp at hj
      omega
    · rw [trigger_wait_step ev r n h] at hj
      simp only [List.length_cons] at hj
      cases i with
      | zero => simpa using h
      | succ i =>
        have := ih (n + 1) (j - 1) (by omega) i (by omega)
        rwa [show n + (i + 1) = n + 1 + i by omega]

/-- C5: when the session is opened, the direct capture fails and all 50 polls
of the first waiting loop return `Timeout`, the run issues exactly one trigger
call, whose return code has no influence on the run, and then the second
waiting loop with 50 attempts; if poll `j` (`1 ≤ j ≤ 50`) of the second loop is
issued and is the first of that loop to return `FileAdded`, with locator `p`,
the run issues exactly `50 + j` polls and goes on with the file transfer of `p`
(Scenario C: `j = 3`). -/
theorem trigger_phase_file_added (dev : Device) (h : dev.initialized)
    (hc : dev.capture < GP_OK)
    (hto : ∀ i, i < 50 → ¬ (dev.wait_for_event i).is_error
        ∧ (dev.wait_for_event i).event = CameraEvent.GP_EVENT_TIMEOUT) :
    triggers (capture_image dev).trace = 1
    ∧ (∀ t, capture_image { dev with trigger_capture := t } = capture_image dev)
    ∧ (capture_phase dev).1
        = Call.gp_camera_capture :: (List.replicate 50 Call.gp_camera_wait_for_event
            ++ Call.gp_camera_trigger_capture :: (trigger_wait dev.wait_for_event 50 50).1)
    ∧ (capture_phase dev).2 = (trigger_wait dev.wait_for_event 50 50).2
    ∧ ∀ j p, 1 ≤ j → j ≤ 50 → j ≤ polls (trigger_wait dev.wait_for_event 50 50).1 →
        (dev.wait_for_event (50 + (j - 1))).file_added p →
        (∀ i, i < j - 1 → ∀ q, ¬ (dev.wait_for_event (50 + i)).file_added q) →
        polls (capture_image dev).trace = 50 + j
        ∧ triggers (capture_image dev).trace = 1
        ∧ (capture_phase dev).2 = some p
        ∧ (capture_image dev).trace
            = [Call.gp_context_new, Call.gp_camera_new, Call.gp_camera_init,
               Call.gp_camera_capture]
              ++ List.replicate 50 Call.gp_camera_wait_for_event
              ++ [Call.gp_camera_trigger_capture]
              ++ List.replicate j Call.gp_camera_wait_for_event
              ++ (file_transfer dev p).trace
        ∧ (capture_image dev).stdout = (file_transfer dev p).stdout := by
  have hb : ∀ i, i < 50 → ¬ (dev.wait_for_event (0 + i)).stops := by
    intro i hi
    rw [Nat.zero_add]
    rintro (hs | ⟨q, hq⟩)
    · exact (hto i hi).1 hs
    · rw [(hto i hi).2] at hq; cases hq
  have h1 := trigger_wait_no_stop dev.wait_for_event 50 0 hb
  have h1n : (trigger_wait dev.wait_for_event 50 0).2 = none := by rw [h1]
  have hphase := capture_phase_trigger dev hc h1n
  rw [h1] at hphase
  simp only [List.length_replicate] at hphase
  obtain ⟨hpolls, htrig⟩ := capture_image_polls dev h
  have hcalls2 := trigger_wait_calls dev.wait_for_event 50 50
  have htr : triggers (capture_image dev).trace = 1 := by
    rw [htrig, hphase]
    simp only []
    rw [hcalls2]
    simp [triggers, List.count_cons, List.count_append, List.count_replicate]
  refine ⟨htr, fun t => rfl, by rw [hphase], by rw [hphase], ?_⟩
  intro j p hj1 hj50 hissued hadd hfirst
  rw [polls_trigger_wait] at hissued
  have hns := trigger_wait_issued dev.wait_for_event 50 50 j hissued
  have hs : (dev.wait_for_event (50 + (j - 1))).stops := WaitResult.file_added_stops hadd
  obtain ⟨hcalls, hres⟩ :=
    trigger_wait_first_stop dev.wait_for_event 50 50 (j - 1) (by omega) hns hs
  rw [show j - 1 + 1 = j by omega] at hcalls
  have hsome : (trigger_wait dev.wait_for_event 50 50).2 = some p := (hres p).mpr hadd
  rw [hcalls, hsome] at hphase
  have hp2 : (capture_phase dev).2 = some p := by rw [hphase]
  have himg := capture_image_some dev h p hp2
  refine ⟨?_, htr, hp2, ?_, ?_⟩
  · rw [hpolls, hphase]
    show polls ([Call.gp_camera_capture] ++ (List.replicate 50 Call.gp_camera_wait_for_event
      ++ ([Call.gp_camera_trigger_capture] ++ List.replicate j Call.gp_camera_wait_for_event)))
      = 50 + j
    rw [polls_append, polls_append, polls_append, polls_replicate, polls_replicate]
    have e1 : polls [Call.gp_camera_capture] = 0 := rfl
    have e2 : polls [Call.gp_camera_trigger_capture] = 0 := rfl
    omega
  · rw [himg, hphase]; simp
  · rw [himg]

/-- Witness of C5 (Scenario C): 50 time-outs, then `FileAdded` at poll 3 of the
second loop; the run issues 53 polls. -/
theorem trigger_phase_file_added_witness :
    polls (capture_image (sample_device (-1) (file_added_at 52 img02) 0 sample_config)).trace
      = 50 + 3 :=
  ((trigger_phase_file_added (sample_device (-1) (file_added_at 52 img02) 0 sample_config)
      ⟨rfl, by decide, by decide⟩ (by decide)
      (by
        intro i hi
        have hne : i ≠ 52 := by omega
        refine ⟨?_, ?_⟩
        · simp [sample_device, file_added_at, hne, GP_OK, WaitResult.is_error]
        · simp [sample_device, file_added_at, hne])).2.2.2.2 3 img02 (by decide) (by decide)
      (by decide) ⟨by decide, rfl⟩
      (by
        intro i hi q hq
        have hne : 50 + i ≠ 52 := by omega
        have := hq.2
        simp [sample_device, file_added_at, hne] at this)).1

/-- C6, as stated, fails: when the direct capture fails and both waiting loops
see time-outs only, the line written to standard output is not the one with the
error text "capture fired but no file retrieved". -/
theorem exhausted_error_text_differs :
    (sample_device (-1) all_timeouts 0 sample_config).capture < GP_OK
      ∧ (fallback_wait (sample_device (-1) all_timeouts 0 sample_config).wait_for_event 50 0).2.isNone
          = true
      ∧ (trigger_wait (sample_device (-1) all_timeouts 0 sample_config).wait_for_event 50 50).2.isNone
          = true
      ∧ (capture_image (sample_device (-1) all_timeouts 0 sample_config)).stdout
          ≠ "\x7b\"success\":false,\"error\":\"capture fired but no file retrieved\"\x7d\n" := by
  decide

/-- C6, amended: when the session is opened, the direct capture fails and both
waiting loops end without a locator, the run writes the result
`success:false` with the error text "Capture fired but could not retrieve file
from camera", issues none of the calls `gp_file_new`, `gp_camera_file_get`,
`gp_file_save`, `gp_camera_file_delete`, and closes the session. -/
theorem exhausted_reports_failure (dev : Device) (h : dev.initialized)
    (hc : dev.capture < GP_OK)
    (h1 : (fallback_wait dev.wait_for_event 50 0).2 = none)
    (h2 : (trigger_wait dev.wait_for_event 50
            (fallback_wait dev.wait_for_event 50 0).1.length).2 = none) :
    (capture_image dev).stdout
        = "\x7b\"success\":false,\"error\":\"Capture fired but could not retrieve file from camera\"\x7d\n"
    ∧ transfers (capture_image dev).trace = 0
    ∧ (capture_image dev).trace
        = [Call.gp_context_new, Call.gp_camera_new, Call.gp_camera_init] ++ (capture_phase dev).1
            ++ [Call.gp_camera_exit, Call.gp_camera_free, Call.gp_context_unref] := by
  rw [fallback_wait_eq_trigger_wait] at h1 h2
  have hphase := capture_phase_trigger dev hc h1
  have hnone : (capture_phase dev).2 = none := by rw [hphase]; exact h2
  have himg := capture_image_none dev h hnone
  refine ⟨by rw [himg], ?_, by rw [himg]⟩
  rw [himg]
  have := (capture_phase_transfers dev).1
  simp only [transfers, List.countP_append] at this ⊢
  rw [this]
  rfl

/-- Witness of C6 (amended), Scenario D: both loops see time-outs only. -/
theorem exhausted_reports_failure_witness :
    transfers (capture_image (sample_device (-1) all_timeouts 0 sample_config)).trace = 0 :=
  (exhausted_reports_failure (sample_device (-1) all_timeouts 0 sample_config)
    ⟨rfl, by decide, by decide⟩ (by decide) rfl rfl).2.1

/-- C7: for every locator `p` that `capture_image` carries into the file
transfer, when `gp_file_new`, `gp_camera_file_get` and `gp_file_save` succeed
the run saves to `"/tmp/" ++ p.name` and writes the result `success:true` with
that local path and the device path `p.folder/p.name`; when one of them fails
the run writes a result `success:false` with an error text. -/
theorem file_transfer_result (dev : Device) (h : dev.initialized) (p : CameraFilePath)
    (hp : (capture_phase dev).2 = some p) :
    (¬ dev.file_new < GP_OK → ¬ dev.file_get < GP_OK → ¬ dev.file_save < GP_OK →
        (capture_image dev).stdout
            = "\x7b\"success\":true,\"file_path\":\"" ++ ("/tmp/" ++ p.name)
                ++ "\",\"camera_path\":\"" ++ p.folder ++ "/" ++ p.name ++ "\"\x7d\n"
          ∧ Call.gp_file_save ("/tmp/" ++ p.name) ∈ (capture_image dev).trace)
    ∧ (dev.file_new < GP_OK ∨ dev.file_get < GP_OK ∨ dev.file_save < GP_OK →
        ∃ error, (capture_image dev).stdout
            = "\x7b\"success\":false,\"error\":\"" ++ error ++ "\"\x7d\n") := by
  rw [capture_image_some dev h p hp]
  refine ⟨fun hn hg hs => ?_, fun hf => ?_⟩
  · simp only [file_transfer, if_neg hn, if_neg hg, if_neg hs, snprintf_output_path]
    refine ⟨trivial, ?_⟩
    simp
  · by_cases hn : dev.file_new < GP_OK
    · refine ⟨"Failed to create file: " ++ dev.result_as_string dev.file_new ++ " (code "
          ++ fmt_d dev.file_new ++ ")", ?_⟩
      simp only [file_transfer, if_pos hn, String.append_assoc]
      rfl
    · by_cases hg : dev.file_get < GP_OK
      · refine ⟨"Failed to download: " ++ dev.result_as_string dev.file_get ++ " (code "
            ++ fmt_d dev.file_get ++ ")", ?_⟩
        simp only [file_transfer, if_neg hn, if_pos hg, String.append_assoc]
        rfl
      · have hs : dev.file_save < GP_OK := (hf.resolve_left hn).resolve_left hg
        refine ⟨"Failed to save file: " ++ dev.result_as_string dev.file_save ++ " (code "
            ++ fmt_d dev.file_save ++ ")", ?_⟩
        simp only [file_transfer, if_neg hn, if_neg hg, if_pos hs, String.append_assoc]
        rfl

/-- Witness of C7 (Scenario A): the direct capture returns
`/store/1/IMG01.JPG` and the download succeeds. -/
theorem file_transfer_result_witness :
    (capture_image (sample_device 0 all_timeouts 0 sample_config)).stdout
      = "\x7b\"success\":true,\"file_path\":\"/tmp/IMG01.JPG\",\"camera_path\":\"/store/1/IMG01.JPG\"\x7d\n" :=
  ((file_transfer_result (sample_device 0 all_timeouts 0 sample_config)
      ⟨rfl, by decide, by decide⟩ img01 rfl).1 (by decide) (by decide) (by decide)).1

/-! ## Lemmas on the configuration tree walker -/

mutual
theorem find_widget_eq_find : ∀ (w : CameraWidget) (name : String),
    find_widget w name = (preorder w).find? (CameraWidget.named name)
  | .mk data children, name => by
    rw [find_widget, preorder]
    by_cases h : data.name = some name
    · rw [if_pos h, List.find?_cons_of_pos]
      simp [CameraWidget.named, CameraWidget.data, h]
    · rw [if_neg h, List.find?_cons_of_neg]
      · exact find_widget_children_eq_find children name
      · simp [CameraWidget.named, CameraWidget.data, h]
theorem find_widget_children_eq_find : ∀ (cs : List CameraWidget) (name : String),
    find_widget_children cs name = (preorder_children cs).find? (CameraWidget.named name)
  | [], _ => by simp [find_widget_children, preorder_children]
  | c :: rest, name => by
    rw [find_widget_children, preorder_children, List.find?_append,
      ← find_widget_eq_find c name, ← find_widget_children_eq_find rest name]
    cases find_widget c name <;> rfl
end

theorem find_widget_name (root : CameraWidget) (name : String) (w : CameraWidget)
    (h : find_widget root name = some w) : w.data.name = some name := by
  rw [find_widget_eq_find] at h
  simpa [CameraWidget.named] using List.find?_some h

theorem find_widget_eq_none (root : CameraWidget) (name : String) :
    find_widget root name = none ↔ ∀ x ∈ preorder root, x.data.name ≠ some name := by
  rw [find_widget_eq_find, List.find?_eq_none]
  simp [CameraWidget.named]

/-- C8: for every tree and every query name, `find_widget` returns the first
node of the depth-first pre-order listing of the tree (a node before its
children, children in index order) whose name equals the query: it returns `w`
exactly when `w` has that name and no node listed before `w` has it; it returns
nothing exactly when no node of the tree has that name; and it returns the root
whenever the root's own name matches. -/
theorem find_widget_first_in_preorder (root : CameraWidget) (name : String) :
    find_widget root name = (preorder root).find? (CameraWidget.named name)
    ∧ (∀ w, find_widget root name = some w
        ↔ w.data.name = some name
          ∧ ∃ before after, preorder root = before ++ w :: after
              ∧ ∀ x ∈ before, x.data.name ≠ some name)
    ∧ (find_widget root name = none ↔ ∀ x ∈ preorder root, x.data.name ≠ some name)
    ∧ (root.data.name = some name → find_widget root name = some root) := by
  refine ⟨find_widget_eq_find root name, fun w => ?_, find_widget_eq_none root name, fun h => ?_⟩
  · rw [find_widget_eq_find, List.find?_eq_some]
    simp [CameraWidget.named]
  · cases root with
    | mk data children =>
      have h' : data.name = some name := h
      rw [find_widget, if_pos h']

theorem get_config_object (dev : Device) (h : dev.initialized) (hcfg : ¬ dev.get_config < GP_OK) :
    (get_config dev).stdout
      = .object (config_records dev.char_signed dev.printf_1f dev.config settings) := by
  obtain ⟨h1, h2, h3⟩ := h
  simp only [get_config, h1, if_neg h2, if_neg h3, if_neg hcfg]
  rfl

theorem setting_record_key (b : Bool) (f : CFloat → String) (s : String) (root w : CameraWidget)
    (h : find_widget root s = some w) : (setting_record b f s w).key = s := by
  have := find_widget_name root s w h
  simp [setting_record, this]

theorem config_records_keys (b : Bool) (f : CFloat → String) (config : CameraWidget)
    (l : List String) :
    (config_records b f config l).map SettingRecord.key
      = l.filter (fun s => (preorder config).any (CameraWidget.named s)) := by
  induction l with
  | nil => rfl
  | cons s rest ih =>
    rw [config_records]
    cases hf : find_widget config s with
    | none =>
      have hno : (preorder config).any (CameraWidget.named s) = false := by
        rw [find_widget_eq_find, List.find?_eq_none] at hf
        simpa using hf
      simp only [ih, List.filter_cons, hno]
      rfl
    | some w =>
      have hyes : (preorder config).any (CameraWidget.named s) = true := by
        rw [find_widget_eq_find] at hf
        exact List.any_eq_true.mpr ⟨w, List.mem_of_find?_eq_some hf, List.find?_some hf⟩
      simp only [List.map_cons, ih, List.filter_cons, hyes, setting_record_key b f s config w hf]
      rfl

/-- C9: when the session is opened and the settings tree is obtained,
`get_config` prints an object whose keys are the catalog names that some node
of the tree carries, in catalog order; so a name is a key exactly when it is in
the catalog and some node of the tree has it, and no key stands for a name that
is absent from the tree. -/
theorem get_config_keys (dev : Device) (h : dev.initialized) (hcfg : ¬ dev.get_config < GP_OK) :
    ∃ members, (get_config dev).stdout = .object members
      ∧ members.map SettingRecord.key
          = settings.filter (fun s => (preorder dev.config).any (CameraWidget.named s))
      ∧ (∀ s, s ∈ members.map SettingRecord.key
          ↔ s ∈ settings ∧ ∃ w ∈ preorder dev.config, w.data.name = some s)
      ∧ (∀ s, (∀ w ∈ preorder dev.config, w.data.name ≠ some s) →
          s ∉ members.map SettingRecord.key) := by
  have hkeys := config_records_keys dev.char_signed dev.printf_1f dev.config settings
  have hiff : ∀ s, s ∈ (config_records dev.char_signed dev.printf_1f dev.config
      settings).map SettingRecord.key
      ↔ s ∈ settings ∧ ∃ w ∈ preorder dev.config, w.data.name = some s := by
    intro s
    rw [hkeys, List.mem_filter, List.any_eq_true]
    simp [CameraWidget.named]
  refine ⟨_, get_config_object dev h hcfg, hkeys, hiff, ?_⟩
  intro s habs hmem
  obtain ⟨-, w, hw, hname⟩ := (hiff s).mp hmem
  exact habs w hw hname

/-- Witness of C9 (Scenario E): a tree with an `iso` menu and no `aperture`
node gives the key `iso` and no key `aperture`. -/
theorem get_config_keys_witness :
    ∃ members, (get_config (sample_device 0 all_timeouts 0 sample_config)).stdout = .object members
      ∧ "iso" ∈ members.map SettingRecord.key ∧ "aperture" ∉ members.map SettingRecord.key := by
  obtain ⟨members, hout, hkeys, -, -⟩ :=
    get_config_keys (sample_device 0 all_timeouts 0 sample_config) ⟨rfl, by decide, by decide⟩
      (by decide)
  refine ⟨members, hout, ?_, ?_⟩ <;> rw [hkeys] <;> decide

/-- C11: for every node whose kind is not Range, `get_widget_value` returns a
string that does not depend on the C library's number formatting: for Text,
Radio and Menu the underlying string as it is (and the empty string when the
accessor leaves no string), for Toggle the literal `"true"` when the underlying
integer is set and `"false"` when it is not, and the empty string for every
other kind. -/
theorem get_widget_value_non_range (printf_1f : CFloat → String) (widget : CameraWidget)
    (h : widget.data.type ≠ CameraWidgetType.GP_WIDGET_RANGE) :
    (∀ g, get_widget_value g widget = get_widget_value printf_1f widget)
    ∧ (widget.data.type = CameraWidgetType.GP_WIDGET_TEXT
          ∨ widget.data.type = CameraWidgetType.GP_WIDGET_RADIO
          ∨ widget.data.type = CameraWidgetType.GP_WIDGET_MENU →
        (∀ s, widget.data.value_string = some s → get_widget_value printf_1f widget = s)
        ∧ (widget.data.value_string = none → get_widget_value printf_1f widget = ""))
    ∧ (widget.data.type = CameraWidgetType.GP_WIDGET_TOGGLE →
        (widget.data.value_int ≠ 0 → get_widget_value printf_1f widget = "true")
        ∧ (widget.data.value_int = 0 → get_widget_value printf_1f widget = "false"))
    ∧ (widget.data.type = CameraWidgetType.GP_WIDGET_DATE
          ∨ (∃ code, widget.data.type = CameraWidgetType.other code) →
        get_widget_value printf_1f widget = "")
    ∧ (widget.data.type ≠ CameraWidgetType.GP_WIDGET_TEXT →
        widget.data.type ≠ CameraWidgetType.GP_WIDGET_RADIO →
        widget.data.type ≠ CameraWidgetType.GP_WIDGET_MENU →
        widget.data.type ≠ CameraWidgetType.GP_WIDGET_TOGGLE →
        get_widget_value printf_1f widget = "") := by
  have htrue : snprintf 256 "true" = "true" := by decide
  have hfalse : snprintf 256 "false" = "false" := by decide
  refine ⟨fun g => ?_, fun hk => ⟨fun s hs => ?_, fun hs => ?_⟩, fun hk => ⟨fun hv => ?_, fun hv => ?_⟩,
    fun hk => ?_, fun h1 h2 h3 h4 => ?_⟩
  · unfold get_widget_value
    cases ht : widget.data.type <;> simp_all
  · unfold get_widget_value
    rcases hk with hk | hk | hk <;> simp [hk, hs]
  · unfold get_widget_value
    rcases hk with hk | hk | hk <;> simp [hk, hs]
  · unfold get_widget_value
    simp [hk, hv, htrue]
  · unfold get_widget_value
    simp [hk, hv, hfalse]
  · unfold get_widget_value
    rcases hk with hk | ⟨code, hk⟩ <;> simp [hk]
  · unfold get_widget_value
    cases ht : widget.data.type <;> simp_all

/-- Witness of C11: a menu node whose underlying string is `400`. -/
theorem get_widget_value_non_range_witness :
    get_widget_value (fun _ => "0.0")
        (sample_leaf "iso" CameraWidgetType.GP_WIDGET_MENU "400" ["100", "200", "400", "800"])
      = "400" :=
  ((get_widget_value_non_range (fun _ => "0.0")
      (sample_leaf "iso" CameraWidgetType.GP_WIDGET_MENU "400" ["100", "200", "400", "800"])
      (by decide)).2.1 (Or.inr (Or.inr rfl))).1 "400" rfl

/-! ## Release of the session -/

theorem capture_phase_count (dev : Device) (c : Call) (h1 : c ≠ Call.gp_camera_capture)
    (h2 : c ≠ Call.gp_camera_wait_for_event) (h3 : c ≠ Call.gp_camera_trigger_capture) :
    (capture_phase dev).1.count c = 0 := by
  rw [List.count_eq_zero]
  intro hmem
  rcases capture_phase_calls dev c hmem with h | h | h
  · exact h1 h
  · exact h2 h
  · exact h3 h

theorem count_session_trace (dev : Device) (c : Call) (tail : List Call)
    (h1 : c ≠ Call.gp_camera_capture) (h2 : c ≠ Call.gp_camera_wait_for_event)
    (h3 : c ≠ Call.gp_camera_trigger_capture) :
    ([Call.gp_context_new, Call.gp_camera_new, Call.gp_camera_init] ++ (capture_phase dev).1
        ++ tail).count c
      = [Call.gp_context_new, Call.gp_camera_new, Call.gp_camera_init].count c + tail.count c := by
  rw [List.count_append, List.count_append, capture_phase_count dev c h1 h2 h3]
  omega

/-- C12: in every run of `capture_image` in which the camera handle was
created, the trace ends with `gp_camera_free` followed by `gp_context_unref`,
each issued exactly once; when the initialization succeeded `gp_camera_exit` is
issued exactly once, immediately before `gp_camera_free` (and not at all when
it failed); and when `gp_file_new` was called and succeeded `gp_file_free` is
issued exactly once, immediately before `gp_camera_exit` (and not at all when
no file object was created). -/
theorem capture_image_releases_session (dev : Device) (hctx : dev.context_new = true)
    (hnew : ¬ dev.camera_new < GP_OK) :
    (∃ before, (capture_image dev).trace
        = before ++ [Call.gp_camera_free, Call.gp_context_unref])
    ∧ (capture_image dev).trace.count Call.gp_camera_free = 1
    ∧ (capture_image dev).trace.count Call.gp_context_unref = 1
    ∧ (¬ dev.camera_init < GP_OK →
        (∃ before, (capture_image dev).trace
            = before ++ [Call.gp_camera_exit, Call.gp_camera_free, Call.gp_context_unref])
        ∧ (capture_image dev).trace.count Call.gp_camera_exit = 1)
    ∧ (dev.camera_init < GP_OK → (capture_image dev).trace.count Call.gp_camera_exit = 0)
    ∧ (Call.gp_file_new ∈ (capture_image dev).trace → ¬ dev.file_new < GP_OK →
        (∃ before, (capture_image dev).trace
            = before ++ [Call.gp_file_free, Call.gp_camera_exit, Call.gp_camera_free,
                Call.gp_context_unref])
        ∧ (capture_image dev).trace.count Call.gp_file_free = 1)
    ∧ (¬ (Call.gp_file_new ∈ (capture_image dev).trace ∧ ¬ dev.file_new < GP_OK) →
        (capture_image dev).trace.count Call.gp_file_free = 0) := by
  by_cases hinit : dev.camera_init < GP_OK
  · have ht : (capture_image dev).trace
        = [Call.gp_context_new, Call.gp_camera_new, Call.gp_camera_init, Call.gp_camera_free,
            Call.gp_context_unref] := by
      simp only [capture_image, hctx, if_neg hnew, if_pos hinit]
      rfl
    rw [ht]
    refine ⟨⟨[Call.gp_context_new, Call.gp_camera_new, Call.gp_camera_init], rfl⟩, by decide,
      by decide, fun hn => absurd hinit hn, fun _ => by decide, fun hmem => ?_, fun _ => by decide⟩
    exact absurd hmem (by decide)
  · have hi : dev.initialized := ⟨hctx, hnew, hinit⟩
    cases hc : (capture_phase dev).2 with
    | none =>
      have ht : (capture_image dev).trace
          = [Call.gp_context_new, Call.gp_camera_new, Call.gp_camera_init] ++ (capture_phase dev).1
              ++ [Call.gp_camera_exit, Call.gp_camera_free, Call.gp_context_unref] := by
        rw [capture_image_none dev hi hc]
      have hcnt := fun c h1 h2 h3 => count_session_trace dev c
        [Call.gp_camera_exit, Call.gp_camera_free, Call.gp_context_unref] h1 h2 h3
      have hnf : (capture_image dev).trace.count Call.gp_file_new = 0 := by
        rw [ht, hcnt _ (by decide) (by decide) (by decide)]; rfl
      rw [ht]
      refine ⟨⟨[Call.gp_context_new, Call.gp_camera_new, Call.gp_camera_init]
          ++ (capture_phase dev).1 ++ [Call.gp_camera_exit], by simp⟩, ?_, ?_,
        fun _ => ⟨⟨_, rfl⟩, ?_⟩, fun hn => absurd hn hinit, fun hmem => ?_, fun _ => ?_⟩
      · rw [hcnt _ (by decide) (by decide) (by decide)]; rfl
      · rw [hcnt _ (by decide) (by decide) (by decide)]; rfl
      · rw [hcnt _ (by decide) (by decide) (by decide)]; rfl
      · rw [← ht] at hmem
        exact absurd hmem (List.count_eq_zero.mp hnf)
      · rw [hcnt _ (by decide) (by decide) (by decide)]; rfl
    | some p =>
      have ht0 : (capture_image dev).trace
          = [Call.gp_context_new, Call.gp_camera_new, Call.gp_camera_init] ++ (capture_phase dev).1
              ++ (file_transfer dev p).trace := by
        rw [capture_image_some dev hi p hc]
      have hcnt := fun c tail h1 h2 h3 => count_session_trace dev c tail h1 h2 h3
      by_cases hn : dev.file_new < GP_OK
      · have hft : (file_transfer dev p).trace
            = [Call.gp_file_new, Call.gp_camera_exit, Call.gp_camera_free,
                Call.gp_context_unref] := by
          simp only [file_transfer, if_pos hn]
        rw [ht0, hft]
        refine ⟨⟨[Call.gp_context_new, Call.gp_camera_new, Call.gp_camera_init]
            ++ (capture_phase dev).1 ++ [Call.gp_file_new, Call.gp_camera_exit], by simp⟩, ?_, ?_,
          fun _ => ⟨⟨[Call.gp_context_new, Call.gp_camera_new, Call.gp_camera_init]
            ++ (capture_phase dev).1 ++ [Call.gp_file_new], by simp⟩, ?_⟩,
          fun h => absurd h hinit, fun _ hok => absurd hn hok, fun _ => ?_⟩
        · rw [hcnt _ _ (by decide) (by decide) (by decide)]; rfl
        · rw [hcnt _ _ (by decide) (by decide) (by decide)]; rfl
        · rw [hcnt _ _ (by decide) (by decide) (by decide)]; rfl
        · rw [hcnt _ _ (by decide) (by decide) (by decide)]; rfl
      · by_cases hg : dev.file_get < GP_OK
        · have hft : (file_transfer dev p).trace
              = [Call.gp_file_new, Call.gp_camera_file_get p.folder p.name, Call.gp_file_free,
                  Call.gp_camera_exit, Call.gp_camera_free, Call.gp_context_unref] := by
            simp only [file_transfer, if_neg hn, if_pos hg]
          rw [ht0, hft]
          refine ⟨⟨[Call.gp_context_new, Call.gp_camera_new, Call.gp_camera_init]
              ++ (capture_phase dev).1 ++ [Call.gp_file_new,
                Call.gp_camera_file_get p.folder p.name, Call.gp_file_free,
                Call.gp_camera_exit], by simp⟩, ?_, ?_,
            fun _ => ⟨⟨[Call.gp_context_new, Call.gp_camera_new, Call.gp_camera_init]
              ++ (capture_phase dev).1 ++ [Call.gp_file_new,
                Call.gp_camera_file_get p.folder p.name, Call.gp_file_free], by simp⟩, ?_⟩,
            fun h => absurd h hinit,
            fun _ _ => ⟨⟨[Call.gp_context_new, Call.gp_camera_new, Call.gp_camera_init]
              ++ (capture_phase dev).1 ++ [Call.gp_file_new,
                Call.gp_camera_file_get p.folder p.name], by simp⟩, ?_⟩,
            fun hno => ?_⟩
          · rw [hcnt _ _ (by decide) (by decide) (by decide)]; simp [List.count_cons]
          · rw [hcnt _ _ (by decide) (by decide) (by decide)]; simp [List.count_cons]
          · rw [hcnt _ _ (by decide) (by decide) (by decide)]; simp [List.count_cons]
          · rw [hcnt _ _ (by decide) (by decide) (by decide)]; simp [List.count_cons]
          · exact absurd ⟨by simp, hn⟩ hno
        · have hft : (file_transfer dev p).trace
              = [Call.gp_file_new, Call.gp_camera_file_get p.folder p.name,
                  Call.gp_file_save (snprintf 512 ("/tmp/" ++ p.name)),
                  Call.gp_camera_file_delete p.folder p.name, Call.gp_file_free,
                  Call.gp_camera_exit, Call.gp_camera_free, Call.gp_context_unref] := by
            simp only [file_transfer, if_neg hn, if_neg hg]
          rw [ht0, hft]
          refine ⟨⟨[Call.gp_context_new, Call.gp_camera_new, Call.gp_camera_init]
              ++ (capture_phase dev).1 ++ [Call.gp_file_new,
                Call.gp_camera_file_get p.folder p.name,
                Call.gp_file_save (snprintf 512 ("/tmp/" ++ p.name)),
                Call.gp_camera_file_delete p.folder p.name, Call.gp_file_free,
                Call.gp_camera_exit], by simp⟩, ?_, ?_,
            fun _ => ⟨⟨[Call.gp_context_new, Call.gp_camera_new, Call.gp_camera_init]
              ++ (capture_phase dev).1 ++ [Call.gp_file_new,
                Call.gp_camera_file_get p.folder p.name,
                Call.gp_file_save (snprintf 512 ("/tmp/" ++ p.name)),
                Call.gp_camera_file_delete p.folder p.name, Call.gp_file_free], by simp⟩, ?_⟩,
            fun h => absurd h hinit,
            fun _ _ => ⟨⟨[Call.gp_context_new, Call.gp_camera_new, Call.gp_camera_init]
              ++ (capture_phase dev).1 ++ [Call.gp_file_new,
                Call.gp_camera_file_get p.folder p.name,
                Call.gp_file_save (snprintf 512 ("/tmp/" ++ p.name)),
                Call.gp_camera_file_delete p.folder p.name], by simp⟩, ?_⟩,
            fun hno => ?_⟩
          · rw [hcnt _ _ (by decide) (by decide) (by decide)]; simp [List.count_cons]
          · rw [hcnt _ _ (by decide) (by decide) (by decide)]; simp [List.count_cons]
          · rw [hcnt _ _ (by decide) (by decide) (by decide)]; simp [List.count_cons]
          · rw [hcnt _ _ (by decide) (by decide) (by decide)]; simp [List.count_cons]
          · exact absurd ⟨by simp, hn⟩ hno

/-- Witness of C12: Scenario A, a direct capture with a successful download;
the run ends with the release of the handle and of the context. -/
theorem capture_image_releases_session_witness :
    (capture_image (sample_device 0 all_timeouts 0 sample_config)).trace.count
        Call.gp_camera_free = 1
      ∧ (capture_image (sample_device 0 all_timeouts 0 sample_config)).trace.count
        Call.gp_context_unref = 1 :=
  ⟨(capture_image_releases_session (sample_device 0 all_timeouts 0 sample_config) rfl
      (by decide)).2.1,
   (capture_image_releases_session (sample_device 0 all_timeouts 0 sample_config) rfl
      (by decide)).2.2.1⟩

end Gphoto2Wrapper
